import Mathlib

/-!
Shallow embedding of the Medagg Excel Dashboard repository
(files `Excel Dashboard/app.py`, `Excel Dashboard/api/index.py`,
`Excel Dashboard/netlify/functions/api.py`) and proofs about its
filtering, aggregation, caching and serialization pipeline.

The data model: a pandas DataFrame is embedded as a `Frame` — an ordered
list of column names together with an ordered list of rows, each row an
ordered list of cell `Value`s aligned with the columns.  Cell values are
strings, calendar dates, or null (covering pandas NaN/NaT/None uniformly,
since the dashboard code treats all of them as missing).  There are no
other cell types in the fragments the claims touch.
-/

namespace MedaggDashboard

/-- A calendar date (year, month, day), as Python `datetime.date`. -/
structure Dt where
  y : Nat
  m : Nat
  d : Nat
deriving DecidableEq, Repr

/-- Order-embedding of a date into a number; for valid dates this agrees
with calendar order, mirroring Python date comparison. -/
def Dt.toN (a : Dt) : Nat := a.y * 10000 + a.m * 100 + a.d

/-- Boolean date comparison, as Python `<=` on `datetime.date`. -/
def Dt.leB (a b : Dt) : Bool := decide (a.toN ≤ b.toN)

/-- A cell value: string, date, or null (pandas NaN/NaT/None). -/
inductive Value where
  | str (s : String)
  | date (d : Dt)
  | null
deriving DecidableEq, Repr

/-- A DataFrame: ordered column names plus rows of cells aligned with
the columns.  Missing cells read as null. -/
structure Frame where
  cols : List String
  rows : List (List Value)
deriving DecidableEq, Repr

/-- Lowercase a string, as Python `str.lower` on ASCII data. -/
def lowerS (s : String) : String := String.mk (s.toList.map Char.toLower)

/-- Strip leading and trailing whitespace, as Python `str.strip`. -/
def trimS (s : String) : String :=
  String.mk (((s.toList.dropWhile Char.isWhitespace).reverse.dropWhile Char.isWhitespace).reverse)

/-- Python `str(value)` for a cell, as produced by `astype(str)`:
strings pass through, dates render as `Timestamp` text, and missing
values render as the text "nan". -/
def pyStr : Value → String
  | .str s => s
  | .date d => toString d.y ++ "-" ++ toString d.m ++ "-" ++ toString d.d ++ " 00:00:00"
  | .null => "nan"

/-- The `astype(str).str.strip().str.lower()` cleaning step used by every
`calculate_counts` variant. -/
def cleanCell (v : Value) : String := lowerS (trimS (pyStr v))

/-- Index of a column by exact name. -/
def colIdx (df : Frame) (c : String) : Option Nat := df.cols.findIdx? (· == c)

/-- The cell of row `r` in column `c` (null when the column is absent or
the row is short). -/
def cellB (df : Frame) (c : String) (r : List Value) : Value :=
  match colIdx df c with
  | some i => r.getD i .null
  | none => .null

/-- All cells of column `c`, in row order. -/
def colCells (df : Frame) (c : String) : List Value :=
  match colIdx df c with
  | some i => df.rows.map (fun r => r.getD i .null)
  | none => []

/-- Number of rows whose cleaned cell in column `c` equals `lbl`:
the `(cleaned_series == lbl).sum()` idiom of `calculate_counts`. -/
def countLabel (df : Frame) (c : String) (lbl : String) : Nat :=
  ((colCells df c).map cleanCell).count lbl

/-- A value in a counts summary: a numeric counter, or the netlify
variant's `debug_info` payload (status column used + unique raw values). -/
inductive CVal where
  | num (n : Nat)
  | info (col : Option String) (uniq : List Value)
deriving DecidableEq, Repr

/-- First-occurrence deduplication, as pandas `Series.unique()`. -/
def firstDedup : List Value → List Value
  | [] => []
  | v :: t => v :: (firstDedup (t.filter (· ≠ v)))
termination_by l => l.length
decreasing_by
  simp only [List.length_cons]
  exact Nat.lt_succ_of_le (List.length_filter_le _ _)

/-- Function `calculate_counts` of `Excel Dashboard/app.py` (lines 200-257),
returned as the association list the Python dict holds, in insertion
order.  Counter logic: `opd_count`/`ipd_count` count cleaned matches of
"opd completed"/"ipd completed" in column "OPD&IPD"; an "IPD Status"
column is a fallback for `ipd_count` when it is zero; the
surgery/diagnostic counters come from a column named " Status" (with a
leading space, as in the source), counting inside the subframe of rows
whose cleaned status is one of the two suggested labels, exactly as the
code filters then recounts; `surgery_not_suggested` counts over the full
column. -/
def calculate_counts_app (df : Frame) : List (String × CVal) :=
  let opd := if df.cols.contains "OPD&IPD" then countLabel df "OPD&IPD" "opd completed" else 0
  let ipd0 := if df.cols.contains "OPD&IPD" then countLabel df "OPD&IPD" "ipd completed" else 0
  let ipd :=
    if df.cols.contains "IPD Status" && (ipd0 == 0) then
      let c := countLabel df "IPD Status" "completed"
      if c > 0 then c else ipd0
    else ipd0
  let suggestedFrame : Frame :=
    match colIdx df " Status" with
    | some i =>
        ⟨df.cols, df.rows.filter (fun r =>
          let s := cleanCell (r.getD i .null)
          s == "surgery suggested" || s == "diagnostic suggested")⟩
    | none => df
  let surgery := if df.cols.contains " Status" then countLabel suggestedFrame " Status" "surgery suggested" else 0
  let diagnostic := if df.cols.contains " Status" then countLabel suggestedFrame " Status" "diagnostic suggested" else 0
  let surgeryNot := if df.cols.contains " Status" then countLabel df " Status" "surgery not suggested" else 0
  [("opd_count", .num opd),
   ("ipd_count", .num ipd),
   ("surgery_suggested", .num surgery),
   ("diagnostic_suggested", .num diagnostic),
   ("surgery_not_suggested", .num surgeryNot),
   ("total_records", .num df.rows.length)]

/-- Whether `needle` occurs as a contiguous substring of `hay`
(Python `needle in hay` on strings), over character lists. -/
def listContainsB (needle : List Char) : List Char → Bool
  | [] => needle.isEmpty
  | c :: t => needle.isPrefixOf (c :: t) || listContainsB needle t

/-- Python `needle in hay` for strings. -/
def strContainsB (needle hay : String) : Bool :=
  listContainsB needle.toList hay.toList

/-- Function `calculate_counts` of `Excel Dashboard/netlify/functions/api.py`
(lines 191-229): resolves a status column (exact cleaned match "opd&ipd",
else the first column whose cleaned name contains "status"), counts
"opd completed" / "ipd completed" there, and returns a dict with keys
`opd_count`, `ipd_count`, `total_records`, `debug_info` only.  (The code
after its `return` statement is unreachable and not modelled.) -/
def calculate_counts_netlify (df : Frame) : List (String × CVal) :=
  let statusCol : Option String :=
    match df.cols.find? (fun c => lowerS (trimS c) == "opd&ipd") with
    | some c => some c
    | none => df.cols.find? (fun c => strContainsB "status" (lowerS (trimS c)))
  let opd := match statusCol with
    | some c => countLabel df c "opd completed"
    | none => 0
  let ipd := match statusCol with
    | some c => countLabel df c "ipd completed"
    | none => 0
  let uniq := match statusCol with
    | some c => firstDedup ((colCells df c).filter (fun v => !(v == .null)))
    | none => []
  [("opd_count", .num opd),
   ("ipd_count", .num ipd),
   ("total_records", .num df.rows.length),
   ("debug_info", .info statusCol uniq)]

/-- The spec's C2 scenario table: one column "OPD&IPD" with the four
status values. -/
def scenarioFrame : Frame :=
  ⟨["OPD&IPD"],
   [[.str "OPD Completed"], [.str "ipd completed"], [.str "Pending"], [.str "OPD Completed"]]⟩

/-- Split a character list on the dash character (Python
`"…".split("-")`, as used for ISO date fields). -/
def splitDash (acc : List Char) : List Char → List (List Char)
  | [] => [acc.reverse]
  | c :: t => if c == '-' then acc.reverse :: splitDash [] t else splitDash (c :: acc) t

/-- Read a nonempty all-digit character list as a number. -/
def digitsToNat? (cs : List Char) : Option Nat :=
  if cs.isEmpty then none
  else if cs.all Char.isDigit then
    some (cs.foldl (fun n c => n * 10 + (c.toNat - 48)) 0)
  else none

/-- Parse an ISO `YYYY-MM-DD` string to a date, modelling
`pd.to_datetime(..., errors='coerce')` on the string data the dashboard
sees: parse failures become null (NaT). -/
def parseIso (s : String) : Option Dt :=
  match splitDash [] s.toList with
  | [ys, ms, ds] =>
      match digitsToNat? ys, digitsToNat? ms, digitsToNat? ds with
      | some y, some m, some d =>
          if 1 ≤ m && m ≤ 12 && 1 ≤ d && d ≤ 31 then some ⟨y, m, d⟩ else none
      | _, _, _ => none
  | _ => none

/-- Coerce one cell with `pd.to_datetime(..., errors='coerce')`: dates
stay, parseable strings become dates, everything else becomes NaT. -/
def coerceCell (v : Value) : Value :=
  match v with
  | .date d => .date d
  | .str s => match parseIso s with
      | some d => .date d
      | none => .null
  | .null => .null

/-- Replace column `c` of every row by `pd.to_datetime` coercion
(in place, as the Python assignment `df[col] = pd.to_datetime(...)`). -/
def coerceCol (df : Frame) (c : String) : Frame :=
  match colIdx df c with
  | none => df
  | some i => ⟨df.cols, df.rows.map (fun r => r.set i (coerceCell (r.getD i .null)))⟩

/-- Whether a column has pandas `object` dtype in this model: it holds at
least one string cell (a homogeneous date/NaT column is `datetime64`). -/
def dtypeObjectB (df : Frame) (c : String) : Bool :=
  (colCells df c).any (fun v => match v with | .str _ => true | _ => false)

/-- The row mask of `filter_df`: `(col.dt.date >= start) & (col.dt.date
<= end)`.  A NaT (null) date compares false on both sides, so null rows
are dropped; no string cell survives coercion. -/
def dateMaskB (sd ed : Dt) (v : Value) : Bool :=
  match v with
  | .date d => sd.leB d && d.leB ed
  | _ => false

/-- Function `filter_df` of `Excel Dashboard/app.py` (lines 139-158).  The result
is the pair (state of the caller's DataFrame after the call, returned
DataFrame): the Python function assigns
`df[DATE_COLUMN_NAME] = pd.to_datetime(df[DATE_COLUMN_NAME], errors='coerce')`
on its argument when the date column has object dtype, so the caller's
frame can change.  DATE_COLUMN_NAME is its default "Date".  The
`try/except` fallback (return `df` unchanged) is unreachable in this
model, because after coercion the column is datetime-typed and the mask
computation cannot raise. -/
def filter_df_app (df : Frame) (s e : Option Dt) : Frame × Frame :=
  if !(df.cols.contains "Date") || s.isNone || e.isNone then (df, df)
  else
    match s, e with
    | some sd, some ed =>
        let df1 := if dtypeObjectB df "Date" then coerceCol df "Date" else df
        (df1, ⟨df1.cols, df1.rows.filter (fun r => dateMaskB sd ed (cellB df1 "Date" r))⟩)
    | _, _ => (df, df)

/-- The module-level cache of `fetch_excel`: the last fetched table and
the timestamp of that fetch (seconds since some epoch), both absent at
process start. -/
structure CacheSt where
  cache : Option Frame
  last : Option Int
deriving DecidableEq, Repr

/-- One network-plus-parse attempt, the effect of
`requests.get(...).raise_for_status()` and `pd.read_excel`: either an
error message (HTTP/network/parse failure raised to the caller) or the
parsed table.  `fetch_excel` is deterministic given this outcome. -/
def NetResult : Type := Except String Frame

/-- Function `fetch_excel` of `Excel Dashboard/app.py` (lines 90-133), as a
state-passing function of (cache state, current time, network outcome),
returning (result, new cache state).  The cache test is the source's
`(now - _last_fetched).seconds < CACHE_SECONDS` with CACHE_SECONDS = 60:
Python's `timedelta.seconds` is the seconds component after whole days
are split off, i.e. the elapsed seconds modulo 86400 — modelled by the
Euclidean `% 86400`, which matches Python's `%` semantics.  On a fetch,
the "Date" column is coerced with `pd.to_datetime(..., errors='coerce')`
before the cache entry is replaced; on a raised error nothing is
assigned. -/
def fetch_excel_app (st : CacheSt) (now : Int) (net : NetResult) :
    Except String Frame × CacheSt :=
  let fetchFresh : Except String Frame × CacheSt :=
    match net with
    | .error e => (.error e, st)
    | .ok df =>
        let df1 := if df.cols.contains "Date" then coerceCol df "Date" else df
        (.ok df1, ⟨some df1, some now⟩)
  match st.cache, st.last with
  | some dfc, some t =>
      if (now - t) % 86400 < 60 then (.ok dfc, st) else fetchFresh
  | _, _ => fetchFresh

/-- Function `fetch_excel` of `Excel Dashboard/api/index.py` (lines 70-85): the
cache test is `datetime.now() - _df_last_fetched < CACHE_DURATION` with
CACHE_DURATION = 5 minutes, a plain comparison of the whole elapsed
time; there is no date-column coercion.  (The returned `.copy()` calls
are identities in this pure model.) -/
def fetch_excel_api (st : CacheSt) (now : Int) (net : NetResult) :
    Except String Frame × CacheSt :=
  let fetchFresh : Except String Frame × CacheSt :=
    match net with
    | .error e => (.error e, st)
    | .ok df => (.ok df, ⟨some df, some now⟩)
  match st.cache, st.last with
  | some dfc, some t =>
      if now - t < 300 then (.ok dfc, st) else fetchFresh
  | _, _ => fetchFresh

/-- A JSON-serializable cell of `_df_to_records`: a string, JSON null,
or a raw non-serialized Python object passed through unchanged (a
datetime object sitting in an `object`-dtype column is not formatted by
the datetime-column loop). -/
inductive Json where
  | str (s : String)
  | null
  | raw (v : Value)
deriving DecidableEq, Repr

/-- A number printed with leading zeros to width `w`, as `strftime`
field padding. -/
def padZ (w : Nat) (n : Nat) : String :=
  let s := toString n
  String.mk (List.replicate (w - s.length) '0') ++ s

/-- Rendering `strftime("%Y-%m-%d")` of a date. -/
def isoDate (d : Dt) : String :=
  padZ 4 d.y ++ "-" ++ padZ 2 d.m ++ "-" ++ padZ 2 d.d

/-- pandas dtype test of `select_dtypes(include=["datetime", ...])` for
the column at index `i`: the column is datetime64 when every cell is a
date or NaT; a column holding any string has `object` dtype. -/
def isDatetimeDtypeB (df : Frame) (i : Nat) : Bool :=
  df.rows.all (fun r =>
    match r.getD i .null with
    | .date _ => true
    | .null => true
    | .str _ => false)

/-- Serialization of one cell by `_df_to_records` of
`Excel Dashboard/app.py` (lines 60-75): in a datetime-dtype column,
dates become `strftime("%Y-%m-%d")` strings and NaT becomes null (the
`.dt.strftime` maps NaT to NaN, then `where(pd.notnull(out), None)`
turns it into None); in any other column, nulls become None and strings
pass through, while a date object passes through raw.  The
time-of-day loop of the source is inert here because the model has no
time-typed cells. -/
def jsonCell (df : Frame) (i : Nat) (v : Value) : Json :=
  if isDatetimeDtypeB df i then
    match v with
    | .date d => .str (isoDate d)
    | .null => .null
    | .str s => .str s
  else
    match v with
    | .str s => .str s
    | .null => .null
    | .date d => .raw (.date d)

/-- One row-object of `to_dict(orient="records")`: column name paired
with the serialized cell, in column order. -/
def recordOf (df : Frame) (r : List Value) : List (String × Json) :=
  (List.range df.cols.length).map (fun i => (df.cols.getD i "", jsonCell df i (r.getD i .null)))

/-- Function `_df_to_records` of `Excel Dashboard/app.py`: one record per row, in
row order; an empty table yields the empty list. -/
def df_to_records_app (df : Frame) : List (List (String × Json)) :=
  df.rows.map (recordOf df)

/-- The field-filter fragment of `api_filter` in `Excel Dashboard/app.py`
(lines 311-324): resolve the column by exact case-insensitive name
match; if found, keep rows whose stringified lowercased cell equals the
lowercased query — with no special case for the "all_bd" sentinel.
Empty `field`/`q` (Python falsy) mean no filtering. -/
def api_filter_field_app (df : Frame) (field q : String) : Frame :=
  if !(field == "") && !(q == "") then
    match df.cols.find? (fun c => lowerS c == lowerS field) with
    | some actual =>
        ⟨df.cols, df.rows.filter (fun r => lowerS (pyStr (cellB df actual r)) == lowerS q)⟩
    | none => df
  else df

/-- The field-filter fragment of `api_counts` in `Excel Dashboard/app.py`
(lines 436-466): short alias names (bd/city/hospital/state) resolve to
the first column whose lowercased name contains the mapped name as a
substring; otherwise an exact lowercased column name matches.  When a
target column is found, the filter is skipped entirely when the field is
"bd" and the query is "all_bd"; otherwise rows with a stringified,
lowercased cell equal to the lowercased query are kept.  (The
`df_columns_lower` dict is modelled for frames without case-colliding
column names, where dict order is column order.) -/
def api_counts_field_app (df : Frame) (field q : String) : Frame :=
  if !(field == "") && !(q == "") then
    let fieldLower := lowerS field
    let knownMap : List (String × String) :=
      [("bd", "BD"), ("city", "City"), ("hospital", "Hospital"), ("state", "State")]
    let target : Option String :=
      match List.lookup fieldLower knownMap with
      | some mapped => df.cols.find? (fun c => strContainsB (lowerS mapped) (lowerS c))
      | none => df.cols.find? (fun c => lowerS c == fieldLower)
    match target with
    | some tc =>
        if !(lowerS field == "bd" && lowerS q == "all_bd") then
          ⟨df.cols, df.rows.filter (fun r => lowerS (pyStr (cellB df tc r)) == lowerS q)⟩
        else df
    | none => df
  else df

/-- Days since 0000-03-01 of a calendar date (the standard civil
calendar algorithm), used to model Python `date` plus or minus `timedelta`. -/
def dtToDays (dt : Dt) : Nat :=
  let y := if dt.m ≤ 2 then dt.y - 1 else dt.y
  let era := y / 400
  let yoe := y % 400
  let mp := if dt.m > 2 then dt.m - 3 else dt.m + 9
  let doy := (153 * mp + 2) / 5 + (dt.d - 1)
  let doe := yoe * 365 + yoe / 4 - yoe / 100 + doy
  era * 146097 + doe

/-- Calendar date from days since 0000-03-01 (inverse civil algorithm). -/
def daysToDt (z : Nat) : Dt :=
  let era := z / 146097
  let doe := z % 146097
  let yoe := (doe - doe / 1460 + doe / 36524 - doe / 146096) / 365
  let y := yoe + era * 400
  let doy := doe - (365 * yoe + yoe / 4 - yoe / 100)
  let mp := (5 * doy + 2) / 153
  let d := doy - (153 * mp + 2) / 5 + 1
  let m := if mp < 10 then mp + 3 else mp - 9
  if m ≤ 2 then ⟨y + 1, m, d⟩ else ⟨y, m, d⟩

/-- Python `date + timedelta(days=n)`. -/
def addDaysD (dt : Dt) (n : Nat) : Dt := daysToDt (dtToDays dt + n)

/-- Python `date - timedelta(days=n)`. -/
def subDaysD (dt : Dt) (n : Nat) : Dt := daysToDt (dtToDays dt - n)

/-- Python `date.weekday()`: Monday is 0 and Sunday is 6. -/
def weekdayD (dt : Dt) : Nat := (dtToDays dt + 2) % 7

/-- Python `first_of_month + relativedelta(months=1)` — only applied to
day-1 dates in `get_range`, so no day clamping is needed. -/
def addOneMonthFirst (dt : Dt) : Dt :=
  if dt.m == 12 then ⟨dt.y + 1, 1, dt.d⟩ else ⟨dt.y, dt.m + 1, dt.d⟩

/-- Function `get_range` of `Excel Dashboard/app.py` (lines 161-194): the named
date presets, else `(None, None)`. -/
def get_range_app (today : Dt) (ft : String) : Option Dt × Option Dt :=
  if ft == "today" then (some today, some today)
  else if ft == "yesterday" then
    let y := subDaysD today 1
    (some y, some y)
  else if ft == "tomorrow" then
    let t := addDaysD today 1
    (some t, some t)
  else if ft == "last7" then (some (subDaysD today 6), some today)
  else if ft == "last30" then (some (subDaysD today 29), some today)
  else if ft == "next7" then (some today, some (addDaysD today 7))
  else if ft == "next30" then (some today, some (addDaysD today 30))
  else if ft == "thisweek" then
    let start := subDaysD today (weekdayD today)
    (some start, some (addDaysD start 6))
  else if ft == "thismonth" then
    let start : Dt := ⟨today.y, today.m, 1⟩
    (some start, some (subDaysD (addOneMonthFirst start) 1))
  else if ft == "thisyear" then (some ⟨today.y, 1, 1⟩, some ⟨today.y, 12, 31⟩)
  else (none, none)

/-- Function `get_range` of `Excel Dashboard/api/index.py` (lines 105-116): its
(differently named) presets, else `(None, None)`. -/
def get_range_api (today : Dt) (ft : String) : Option Dt × Option Dt :=
  if ft == "today" then (some today, some today)
  else if ft == "yesterday" then
    let y := subDaysD today 1
    (some y, some y)
  else if ft == "last_7_days" then (some (subDaysD today 6), some today)
  else if ft == "last_30_days" then (some (subDaysD today 29), some today)
  else if ft == "this_month" then (some ⟨today.y, today.m, 1⟩, some today)
  else if ft == "this_year" then (some ⟨today.y, 1, 1⟩, some ⟨today.y, 12, 31⟩)
  else (none, none)

/-- The recognized preset names of `app.py`'s `get_range`. -/
def presetNamesApp : List String :=
  ["today", "yesterday", "tomorrow", "last7", "last30",
   "next7", "next30", "thisweek", "thismonth", "thisyear"]

/-- The recognized preset names of `api/index.py`'s `get_range`. -/
def presetNamesApi : List String :=
  ["today", "yesterday", "last_7_days", "last_30_days", "this_month", "this_year"]

/-- The date-filtering stage of `api_filter` in `Excel Dashboard/app.py`
(lines 290-309) when no explicit `start`/`end` parameters are supplied:
the `type` argument is lowercased, a nonempty value is resolved through
`get_range`, and `filter_df` runs only when both endpoints are present
(Python `if start_date and end_date`). -/
def api_filter_date_stage (today : Dt) (df : Frame) (ftype : String) : Frame :=
  let p := if !(lowerS ftype == "") then get_range_app today (lowerS ftype) else (none, none)
  match p with
  | (some s, some e2) => (filter_df_app df (some s) (some e2)).2
  | _ => df



/-- C3: for every table, the summary's `total_records` equals the number
of rows, in both the `app.py` aggregator and the netlify aggregator. -/
theorem total_records_eq_row_count (df : Frame) :
    List.lookup "total_records" (calculate_counts_app df) = some (.num df.rows.length) ∧
    List.lookup "total_records" (calculate_counts_netlify df) = some (.num df.rows.length) := by
  constructor <;> rfl

/-- C2: when the "OPD&IPD" column is present (and the "IPD Status"
fallback column is absent), `calculate_counts` reports `opd_count` and
`ipd_count` as the number of rows whose case-folded, whitespace-trimmed
cell in that column equals "opd completed" resp. "ipd completed", and
`total_records` as the row count.  Instantiated at the spec's scenario
table in the witness, this yields opd_count=2, ipd_count=1,
total_records=4. -/
theorem counts_opd_ipd (df : Frame)
    (h1 : df.cols.contains "OPD&IPD" = true)
    (h2 : df.cols.contains "IPD Status" = false) :
    List.lookup "opd_count" (calculate_counts_app df) =
      some (.num (countLabel df "OPD&IPD" "opd completed")) ∧
    List.lookup "ipd_count" (calculate_counts_app df) =
      some (.num (countLabel df "OPD&IPD" "ipd completed")) ∧
    List.lookup "total_records" (calculate_counts_app df) =
      some (.num df.rows.length) := by
  have h1' : "OPD&IPD" ∈ df.cols := by simpa using h1
  have h2' : "IPD Status" ∉ df.cols := by simpa using h2
  simp [calculate_counts_app, List.lookup, h1', h2']

/-- Witness for C2 at the scenario table: opd_count=2, ipd_count=1,
total_records=4. -/
theorem counts_opd_ipd_scenario :
    List.lookup "opd_count" (calculate_counts_app scenarioFrame) = some (.num 2) ∧
    List.lookup "ipd_count" (calculate_counts_app scenarioFrame) = some (.num 1) ∧
    List.lookup "total_records" (calculate_counts_app scenarioFrame) = some (.num 4) := by
  have h := counts_opd_ipd scenarioFrame (by decide) (by decide)
  exact ⟨h.1.trans (by decide), h.2.1.trans (by decide), h.2.2.trans (by decide)⟩

/-- C7 counterexample: the netlify `calculate_counts` summary does not
contain the `surgery_suggested` key at all (here at the empty table), so
the summary does not always carry the full fixed key set named in the
claim. -/
theorem netlify_counts_missing_key :
    List.lookup "surgery_suggested" (calculate_counts_netlify ⟨[], []⟩) = none := rfl

/-- C7 amended: the `app.py` aggregator always returns the full fixed
key set (opd_count, ipd_count, surgery_suggested, diagnostic_suggested,
surgery_not_suggested, total_records) with counters defaulting to zero
when their status column is absent, and absent columns never error; the
netlify aggregator's key set is only opd_count, ipd_count, total_records
and debug_info. -/
theorem counts_key_set (df : Frame) :
    (calculate_counts_app df).map Prod.fst =
      ["opd_count", "ipd_count", "surgery_suggested", "diagnostic_suggested",
       "surgery_not_suggested", "total_records"] ∧
    (calculate_counts_netlify df).map Prod.fst =
      ["opd_count", "ipd_count", "total_records", "debug_info"] ∧
    (df.cols.contains "OPD&IPD" = false →
      List.lookup "opd_count" (calculate_counts_app df) = some (.num 0)) ∧
    (df.cols.contains "OPD&IPD" = false → df.cols.contains "IPD Status" = false →
      List.lookup "ipd_count" (calculate_counts_app df) = some (.num 0)) ∧
    (df.cols.contains " Status" = false →
      List.lookup "surgery_suggested" (calculate_counts_app df) = some (.num 0) ∧
      List.lookup "diagnostic_suggested" (calculate_counts_app df) = some (.num 0)) := by
  refine ⟨rfl, rfl, ?_, ?_, ?_⟩
  · intro h1
    have h1' : "OPD&IPD" ∉ df.cols := by simpa using h1
    simp [calculate_counts_app, List.lookup, h1']
  · intro h1 h2
    have h1' : "OPD&IPD" ∉ df.cols := by simpa using h1
    have h2' : "IPD Status" ∉ df.cols := by simpa using h2
    simp [calculate_counts_app, List.lookup, h1', h2']
  · intro h3
    have h3' : " Status" ∉ df.cols := by simpa using h3
    simp [calculate_counts_app, List.lookup, h3']

/-- C4: on a table whose "Date" column is date-typed (datetime dtype,
i.e. no string cells), `filter_df` with an inclusive range [sd, ed]
returns exactly the rows whose date cell lies within the range; rows
with a null date are excluded by the mask. -/
theorem filter_df_range (df : Frame) (sd ed : Dt)
    (hc : df.cols.contains "Date" = true)
    (hdt : dtypeObjectB df "Date" = false) :
    (filter_df_app df (some sd) (some ed)).2 =
      ⟨df.cols, df.rows.filter (fun r =>
        match cellB df "Date" r with
        | .date d => sd.leB d && d.leB ed
        | _ => false)⟩ := by
  unfold filter_df_app
  rw [hc]
  simp [hdt, dateMaskB]

/-- Witness for C4 at the spec's scenario: a "Date" column holding
2024-01-15 and 2024-02-01 filtered by 2024-01-01..2024-01-31 retains
only the first row. -/
theorem filter_df_range_scenario :
    (filter_df_app ⟨["Date"], [[.date ⟨2024, 1, 15⟩], [.date ⟨2024, 2, 1⟩]]⟩
        (some ⟨2024, 1, 1⟩) (some ⟨2024, 1, 31⟩)).2 =
      ⟨["Date"], [[.date ⟨2024, 1, 15⟩]]⟩ := by
  have h := filter_df_range ⟨["Date"], [[.date ⟨2024, 1, 15⟩], [.date ⟨2024, 2, 1⟩]]⟩
    ⟨2024, 1, 1⟩ ⟨2024, 1, 31⟩ (by decide) (by decide)
  exact h.trans (by decide)

/-- C6 counterexample: `filter_df` is not pure — on a table whose "Date"
column holds the string "2024-01-15" (object dtype), the call rewrites
the caller's column in place to parsed dates, changing both the cell
value and its type. -/
theorem filter_df_mutates_input :
    (filter_df_app ⟨["Date"], [[.str "2024-01-15"]]⟩
        (some ⟨2024, 1, 1⟩) (some ⟨2024, 1, 31⟩)).1 ≠
      ⟨["Date"], [[.str "2024-01-15"]]⟩ := by decide

/-- C6 amended: the only mutation `filter_df` can make to its input is
the in-place `pd.to_datetime` coercion of the "Date" column, and that
happens only when the column has object dtype; otherwise the input is
left unchanged. -/
theorem filter_df_mutation_is_date_coercion (df : Frame) (s e : Option Dt) :
    (filter_df_app df s e).1 = df ∨
    ((filter_df_app df s e).1 = coerceCol df "Date" ∧ dtypeObjectB df "Date" = true) := by
  unfold filter_df_app
  split
  · exact Or.inl rfl
  · split
    · cases hdt : dtypeObjectB df "Date" with
      | true => exact Or.inr ⟨by simp [hdt], rfl⟩
      | false => exact Or.inl (by simp [hdt])
    · exact Or.inl rfl

/-- C1, at the failing input: with a cache entry whose last fetch lies
exactly 86400 seconds (one day) in the past — far beyond the 60-second
cache duration — `app.py`'s `fetch_excel` still returns the stale cached
table and leaves the cache entry untouched, because
`(now - _last_fetched).seconds` wraps modulo 86400 and compares
`0 < 60`.  The fresh table offered by the network (distinct from the
cached one) is never fetched. -/
theorem fetch_cache_wraparound :
    (fetch_excel_app ⟨some ⟨["A"], [[.str "old"]]⟩, some 0⟩ 86400
        (.ok ⟨["A"], [[.str "new"]]⟩)).1 = .ok ⟨["A"], [[.str "old"]]⟩ ∧
    (fetch_excel_app ⟨some ⟨["A"], [[.str "old"]]⟩, some 0⟩ 86400
        (.ok ⟨["A"], [[.str "new"]]⟩)).2 = ⟨some ⟨["A"], [[.str "old"]]⟩, some 0⟩ ∧
    (⟨["A"], [[.str "old"]]⟩ : Frame) ≠ ⟨["A"], [[.str "new"]]⟩ := by
  exact ⟨rfl, rfl, by decide⟩

/-- C5: whenever `fetch_excel` propagates a fetch/parse error, the cache
state (cached table and fetch timestamp) is left completely unchanged —
in both the `app.py` and the `api/index.py` variant. -/
theorem fetch_error_preserves_cache (st : CacheSt) (now : Int) (net : NetResult)
    (e : String) :
    ((fetch_excel_app st now net).1 = .error e → (fetch_excel_app st now net).2 = st) ∧
    ((fetch_excel_api st now net).1 = .error e → (fetch_excel_api st now net).2 = st) := by
  obtain ⟨c, l⟩ := st
  refine ⟨?_, ?_⟩ <;> intro h
  · cases c <;> cases l <;> cases net <;>
      simp_all [fetch_excel_app] <;> split_ifs at * <;> simp_all
  · cases c <;> cases l <;> cases net <;>
      simp_all [fetch_excel_api] <;> split_ifs at * <;> simp_all

/-- Witness for C5 at a concrete state: empty cache, failing network —
the cache state is unchanged by both variants. -/
theorem fetch_error_preserves_cache_empty :
    (fetch_excel_app ⟨none, none⟩ 5 (.error "boom")).2 = (⟨none, none⟩ : CacheSt) ∧
    (fetch_excel_api ⟨none, none⟩ 5 (.error "boom")).2 = (⟨none, none⟩ : CacheSt) := by
  have h := fetch_error_preserves_cache ⟨none, none⟩ 5 (.error "boom") "boom"
  exact ⟨h.1 rfl, h.2 rfl⟩

/-- Witness for C7 (amended) at a concrete table with none of the status
columns: all counters default to zero. -/
theorem counts_key_set_defaults :
    List.lookup "opd_count" (calculate_counts_app ⟨["Foo"], [[.str "x"]]⟩) = some (.num 0) ∧
    List.lookup "ipd_count" (calculate_counts_app ⟨["Foo"], [[.str "x"]]⟩) = some (.num 0) ∧
    List.lookup "surgery_suggested" (calculate_counts_app ⟨["Foo"], [[.str "x"]]⟩) = some (.num 0) := by
  have h := counts_key_set ⟨["Foo"], [[.str "x"]]⟩
  exact ⟨h.2.2.1 (by decide), h.2.2.2.1 (by decide) (by decide), (h.2.2.2.2 (by decide)).1⟩

/-- C8: the record serializer maps an empty table to the empty list; in
every datetime-dtype column a date cell renders as its `YYYY-MM-DD`
string and every null cell (in any column) renders as JSON null; each
table row contributes its record to the output. -/
theorem df_to_records_spec (df : Frame) (r : List Value) (i : Nat)
    (hr : r ∈ df.rows) (hi : i < df.cols.length) :
    df_to_records_app ⟨df.cols, []⟩ = [] ∧
    recordOf df r ∈ df_to_records_app df ∧
    (isDatetimeDtypeB df i = true → ∀ d : Dt, r.getD i .null = .date d →
      ((recordOf df r).getD i ("", .null)).2 = .str (isoDate d)) ∧
    (r.getD i .null = .null → ((recordOf df r).getD i ("", .null)).2 = .null) := by
  refine ⟨rfl, List.mem_map_of_mem _ hr, ?_, ?_⟩
  · intro hdt d hd
    rw [List.getD_eq_getElem?_getD] at hd
    unfold recordOf
    rw [List.getD_eq_getElem?_getD, List.getElem?_map, List.getElem?_range hi]
    simp [jsonCell, hdt, hd]
  · intro hd
    rw [List.getD_eq_getElem?_getD] at hd
    unfold recordOf
    rw [List.getD_eq_getElem?_getD, List.getElem?_map, List.getElem?_range hi]
    cases hdt : isDatetimeDtypeB df i <;> simp [jsonCell, hdt, hd]

/-- Witness for C8: a date cell 2024-03-05 serializes to "2024-03-05", a
null cell serializes to null, and the empty table serializes to `[]`. -/
theorem df_to_records_example :
    ((recordOf ⟨["D", "X"], [[.date ⟨2024, 3, 5⟩, .null]]⟩
        [.date ⟨2024, 3, 5⟩, .null]).getD 0 ("", .null)).2 = .str "2024-03-05" ∧
    ((recordOf ⟨["D", "X"], [[.date ⟨2024, 3, 5⟩, .null]]⟩
        [.date ⟨2024, 3, 5⟩, .null]).getD 1 ("", .null)).2 = .null ∧
    df_to_records_app ⟨["D", "X"], []⟩ = [] := by
  have h1 := df_to_records_spec ⟨["D", "X"], [[.date ⟨2024, 3, 5⟩, .null]]⟩
    [.date ⟨2024, 3, 5⟩, .null] 0 (by decide) (by decide)
  have h2 := df_to_records_spec ⟨["D", "X"], [[.date ⟨2024, 3, 5⟩, .null]]⟩
    [.date ⟨2024, 3, 5⟩, .null] 1 (by decide) (by decide)
  refine ⟨?_, h2.2.2.2 rfl, h1.1⟩
  exact (h1.2.2.1 (by decide) ⟨2024, 3, 5⟩ rfl).trans (by decide)

/-- C9 counterexample: in `app.py`'s `api_filter` endpoint the field
filter `field="bd", q="all_bd"` is not a no-op — on a table with a "BD"
column holding "Alice" it filters the row away (there is no `all_bd`
skip in that endpoint). -/
theorem api_filter_all_bd_filters :
    api_filter_field_app ⟨["BD"], [[.str "Alice"]]⟩ "bd" "all_bd" ≠
      ⟨["BD"], [[.str "Alice"]]⟩ := by decide

/-- C9 amended: in `app.py`'s `api_counts` endpoint the field filter
`field="bd", q="all_bd"` is a no-op for every table — the resolved
target column (if any) is skipped for exactly that field/query pair. -/
theorem api_counts_all_bd_noop (df : Frame) :
    api_counts_field_app df "bd" "all_bd" = df := by
  have hl : lowerS "bd" = "bd" := rfl
  have hl2 : lowerS "all_bd" = "all_bd" := rfl
  rcases hfind : List.find? (fun c => strContainsB (lowerS "BD") (lowerS c)) df.cols with _ | tc <;>
    simp [api_counts_field_app, List.lookup, hl, hl2, hfind]

/-- C10: a filter-type string that is none of the recognized preset
names makes `get_range` return `(None, None)` (in both the `app.py` and
`api/index.py` variant), and consequently the `api_filter` date stage
leaves the table unchanged — no date filtering, no error, no empty
result. -/
theorem get_range_unknown (today : Dt) (df : Frame) (ft : String) :
    (ft ∉ presetNamesApp → get_range_app today ft = (none, none)) ∧
    (ft ∉ presetNamesApi → get_range_api today ft = (none, none)) ∧
    (lowerS ft ∉ presetNamesApp → api_filter_date_stage today df ft = df) := by
  have key : ∀ s : String, s ∉ presetNamesApp → get_range_app today s = (none, none) := by
    intro s hs
    simp only [presetNamesApp, List.mem_cons, List.not_mem_nil, or_false, not_or] at hs
    obtain ⟨h1, h2, h3, h4, h5, h6, h7, h8, h9, h10⟩ := hs
    simp [get_range_app, h1, h2, h3, h4, h5, h6, h7, h8, h9, h10]
  refine ⟨key ft, ?_, ?_⟩
  · intro hs
    simp only [presetNamesApi, List.mem_cons, List.not_mem_nil, or_false, not_or] at hs
    obtain ⟨h1, h2, h3, h4, h5, h6⟩ := hs
    simp [get_range_api, h1, h2, h3, h4, h5, h6]
  · intro hs
    unfold api_filter_date_stage
    cases hb : (lowerS ft == "") with
    | true => simp [hb]
    | false => simp [hb, key (lowerS ft) hs]

/-- Witness for C10 at the unknown filter type "bogus". -/
theorem get_range_unknown_bogus :
    get_range_app ⟨2024, 5, 20⟩ "bogus" = (none, none) ∧
    get_range_api ⟨2024, 5, 20⟩ "bogus" = (none, none) ∧
    api_filter_date_stage ⟨2024, 5, 20⟩ ⟨["Date"], [[.date ⟨2024, 5, 20⟩]]⟩ "bogus" =
      ⟨["Date"], [[.date ⟨2024, 5, 20⟩]]⟩ := by
  have h := get_range_unknown ⟨2024, 5, 20⟩ ⟨["Date"], [[.date ⟨2024, 5, 20⟩]]⟩ "bogus"
  exact ⟨h.1 (by decide), h.2.1 (by decide), h.2.2 (by decide)⟩

end MedaggDashboard
